import Mathlib

/-!
Shallow embedding of `pkg/stripe/analytics_telemetry.go` from the stripe-cli
telemetry subsystem, together with proofs about the claims of its
specification.

Modelling conventions:
* Go's `(value, error)` multiple-return pairs become pairs of `Option`s:
  a nil pointer or nil error is `none`.
* The side effects performed by `SendEvent` (the pre-send sleep, the HTTP
  client construction, the opt-out environment check, the transport call,
  the confirmation print) are recorded in an explicit trace of `Effect`s.
* External collaborators (`net/url.Parse`, `http.NewRequest` failure,
  the instrumented transport, the system clock, the UUID generator) are
  oracles supplied as parameters, matching their call sites in the source.
* `uuid.NewString` is modelled as a supply `Nat → String` with a counter:
  each call consumes the next element of the supply.
-/

/-- A Go `error` value, modelled by its message. -/
structure GoError where
  msg : String
deriving DecidableEq, Repr

/-- The telemetry context struct `CLIAnalyticsEventContext`: one field per Go
struct field, in source order. -/
structure CLIAnalyticsEventContext where
  UserAgent : String
  InvocationID : String
  CommandPath : String
  Merchant : String
  CLIVersion : String
  OS : String
  GeneratedResource : Bool
  RequestID : String
  LiveMode : Bool
deriving DecidableEq, Repr

/-- The zero value of the Go struct (`&CLIAnalyticsEventContext{}`). -/
def CLIAnalyticsEventContext.zeroValue : CLIAnalyticsEventContext :=
  { UserAgent := "", InvocationID := "", CommandPath := "", Merchant := ""
    CLIVersion := "", OS := "", GeneratedResource := false, RequestID := ""
    LiveMode := false }

/-- The part of a `cobra.Command` that `SetCommandContext` reads: its
full command path (`cmd.CommandPath()`) and its `Annotations` map,
modelled as an association list of key/value pairs. -/
structure CobraCommand where
  commandPath : String
  annotations : List (String × String)
deriving DecidableEq, Repr

/-- `SetCommandContext`: sets `CommandPath` from the command, resets
`GeneratedResource` to `false`, then scans every annotation value and sets
`GeneratedResource` to `true` when a value equals `"operation"` (the loop
in the source does not break early, so we fold over the whole list). -/
def CLIAnalyticsEventContext.SetCommandContext
    (e : CLIAnalyticsEventContext) (cmd : CobraCommand) :
    CLIAnalyticsEventContext :=
  let e0 := { e with CommandPath := cmd.commandPath, GeneratedResource := false }
  cmd.annotations.foldl
    (fun acc kv =>
      if kv.2 = "operation" then { acc with GeneratedResource := true } else acc)
    e0

/-- The state of the UUID generator (`uuid.NewString`): a supply of strings
indexed by how many UUIDs have been drawn so far. -/
structure UUIDGen where
  supply : Nat → String
  counter : Nat

/-- Draw the next UUID from the generator. -/
def UUIDGen.next (g : UUIDGen) : String × UUIDGen :=
  (g.supply g.counter, { g with counter := g.counter + 1 })

/-- `SetInvocationID`: stores a freshly drawn UUID in `InvocationID`. -/
def CLIAnalyticsEventContext.SetInvocationID
    (e : CLIAnalyticsEventContext) (g : UUIDGen) :
    CLIAnalyticsEventContext × UUIDGen :=
  let p := g.next
  ({ e with InvocationID := p.1 }, p.2)

/-- Lowercase hexadecimal digit, as produced by `uuid.UUID.String()`. -/
def isLowerHexDigit (c : Char) : Bool :=
  (('0' ≤ c) && (c ≤ '9')) || (('a' ≤ c) && (c ≤ 'f'))

/-- What character is allowed at position `i` of a canonical version-4
UUID string: hyphens at 8, 13, 18, 23; the version nibble `'4'` at 14;
a variant nibble in `8, 9, a, b` at 19; lowercase hex elsewhere. -/
def uuidV4CharOK (i : Nat) (c : Char) : Bool :=
  if i = 8 || i = 13 || i = 18 || i = 23 then c = '-'
  else if i = 14 then c = '4'
  else if i = 19 then (c = '8') || (c = '9') || (c = 'a') || (c = 'b')
  else isLowerHexDigit c

/-- Canonical version-4 UUID string format (36 characters,
`xxxxxxxx-xxxx-4xxx-yxxx-xxxxxxxxxxxx` with `y` in `8..b`), as produced by
`uuid.NewString` in the `google/uuid` library. -/
def isUUIDv4Format (s : String) : Bool :=
  (s.data.length = 36) &&
    ((s.data.enum.all fun ic => uuidV4CharOK ic.1 ic.2))

example : isUUIDv4Format "aaaaaaaa-aaaa-4aaa-8aaa-aaaaaaaaaaaa" = true := by decide
example : isUUIDv4Format "" = false := by decide
example : isUUIDv4Format "aaaaaaaa-aaaa-1aaa-8aaa-aaaaaaaaaaaa" = false := by decide

/-- The package-level mutable state of the Go file: a heap of allocated
`CLIAnalyticsEventContext` records (a location is an index into `heap`),
the package variable `telemetryInstance` (a possibly-nil pointer, i.e. an
optional location), and the state of the `sync.Once` guard `telemetrySync`
(`onceDone` is whether its function has already run). -/
structure TelemetryGlobals where
  heap : List CLIAnalyticsEventContext
  telemetryInstance : Option Nat
  onceDone : Bool
deriving DecidableEq, Repr

/-- The package state at program start: nothing allocated, a nil
`telemetryInstance` pointer, the `sync.Once` not yet fired. -/
def TelemetryGlobals.start : TelemetryGlobals :=
  { heap := [], telemetryInstance := none, onceDone := false }

/-- `GetAnalyticsEventContext`: `telemetrySync.Do` runs its function only if
it has not already run; the function allocates a zero-valued record and
points `telemetryInstance` at it. The call returns `telemetryInstance`. -/
def GetAnalyticsEventContext (g : TelemetryGlobals) :
    Option Nat × TelemetryGlobals :=
  let g1 :=
    if g.onceDone then g
    else
      { heap := g.heap ++ [CLIAnalyticsEventContext.zeroValue]
        telemetryInstance := some g.heap.length
        onceDone := true }
  (g1.telemetryInstance, g1)

/-- The package state after `n` calls to `GetAnalyticsEventContext` made
from program start. -/
def telemetryAfterCalls : Nat → TelemetryGlobals
  | 0 => TelemetryGlobals.start
  | n + 1 => (GetAnalyticsEventContext (telemetryAfterCalls n)).2

/-- Writing a record through a pointer: replace the record stored at
location `loc`. -/
def heapWrite (g : TelemetryGlobals) (loc : Nat)
    (v : CLIAnalyticsEventContext) : TelemetryGlobals :=
  { g with heap := g.heap.set loc v }

/-- Reading a record through a pointer. -/
def heapRead (g : TelemetryGlobals) (loc : Nat) :
    Option CLIAnalyticsEventContext :=
  g.heap.get? loc

/-- Modelled from the spec: the helper `telemetryOptedOut` is called by
`SendEvent` but is not among the source files; per the spec, recognized
truthy values of the `STRIPE_CLI_TELEMETRY_OPTOUT` environment variable
disable all sending. We take the conventional truthy set, case-insensitively.
The claims only constrain inputs through the value of this predicate. -/
def telemetryOptedOut (optoutVar : String) : Bool :=
  let v := String.mk (optoutVar.data.map Char.toLower)
  (v = "1") || (v = "true") || (v = "yes")

/-- How Go's `net/url` encoding renders a boolean struct field value. -/
def boolString (b : Bool) : String := if b then "true" else "false"

/-- `query.Values(e)`: serialize the struct into key/value pairs using each
field's `url:"..."` tag, in field order (the `go-querystring` library;
`url.Values` is a map keyed by these tag names, modelled as an association
list whose keys are distinct). -/
def queryValues (e : CLIAnalyticsEventContext) : List (String × String) :=
  [("user_agent", e.UserAgent),
   ("invocation_id", e.InvocationID),
   ("command_path", e.CommandPath),
   ("merchant", e.Merchant),
   ("cli_version", e.CLIVersion),
   ("os", e.OS),
   ("generated_resource", boolString e.GeneratedResource),
   ("request_id", e.RequestID),
   ("livemode", boolString e.LiveMode)]

/-- `url.Values.Set(key, value)`: replace any entry for `key` by the single
pair `(key, value)`, adding the pair when the key is absent. -/
def valuesSet (vs : List (String × String)) (k v : String) :
    List (String × String) :=
  if vs.any fun p => p.1 = k then
    vs.map fun p => if p.1 = k then (k, v) else p
  else vs ++ [(k, v)]

/-- Look a key up in the form data (keys are distinct, so the first match
is the entry). -/
def formGet (vs : List (String × String)) (k : String) : Option String :=
  (vs.find? fun p => p.1 = k).map fun p => p.2

/-- The form data `SendEvent` builds: the serialized context fields plus
the five fixed keys added by the `data.Set` calls, in source order. -/
def telemetryFormData (e : CLIAnalyticsEventContext)
    (eventID eventName eventValue : String) (nowUnix : Int) :
    List (String × String) :=
  valuesSet
    (valuesSet
      (valuesSet
        (valuesSet
          (valuesSet (queryValues e) "client_id" "stripe-cli")
          "event_id" eventID)
        "event_name" eventName)
      "event_value" eventValue)
    "created" (toString nowUnix)

/-- The outbound HTTP request built by `SendEvent`: method, URL, the
URL-encoded form body (represented by its key/value pairs), headers, and
whether a cancellation context was bound via `WithContext`. -/
structure Request where
  method : String
  url : String
  body : List (String × String)
  headers : List (String × String)
  hasCtx : Bool
deriving DecidableEq, Repr

/-- An HTTP response, as far as the claims need it: its status code. -/
structure HTTPResponse where
  statusCode : Nat
deriving DecidableEq, Repr

/-- The external collaborators of `SendEvent`, as oracles:
`urlParse` models `url.Parse` followed by `URL.String()` (for the fixed
well-formed endpoint the round trip returns the input unchanged, but the
error path is kept, as in the source); `newRequestErr` models the failure
possibility of `http.NewRequest`; `transport` models `client.Do` through
the instrumented transport; `nowUnix` models `time.Now().Unix()`. -/
structure SendDeps where
  urlParse : String → Except GoError String
  newRequestErr : Option GoError
  transport : Request → Except GoError HTTPResponse
  nowUnix : Int

/-- One observable step performed by `SendEvent`, in order. -/
inductive Effect where
  | sleep (seconds : Nat)
  | constructClient
  | optOutCheck (envValue : String)
  | transportCall (req : Request)
  | printOut (msg : String)
deriving DecidableEq, Repr

/-- The outcome of a call to `SendEvent`: the Go return pair
`(*http.Response, error)` with nil as `none`, the trace of effects, and the
UUID generator after the call. -/
structure SendOutcome where
  result : Option HTTPResponse × Option GoError
  trace : List Effect
  gen : UUIDGen

/-- The analytics endpoint constant of the source. -/
def analyticsEndpoint : String := "https://r.stripe.com/0"

/-- The request `SendEvent` constructs when `http.NewRequest` succeeds:
POST to the parsed URL's string form, the form data as body, the two
headers set in the source, and the context bound iff a non-nil `ctx` was
passed. -/
def builtRequest (e : CLIAnalyticsEventContext)
    (eventID urlStr eventName eventValue : String) (nowUnix : Int)
    (hasCtx : Bool) : Request :=
  { method := "POST"
    url := urlStr
    body := telemetryFormData e eventID eventName eventValue nowUnix
    headers := [("origin", "stripe-cli"),
                ("Content-Type", "application/x-www-form-urlencoded")]
    hasCtx := hasCtx }

/-- `SendEvent`: sleeps five seconds, constructs the telemetry HTTP client,
checks the opt-out environment variable and returns `(nil, nil)` when opted
out; otherwise parses the endpoint URL, serializes the context plus the
fixed keys (drawing a fresh UUID for `event_id`), builds the POST request,
executes it once through the transport, and prints the confirmation only
after a transport success. Every failure returns `(nil, err)`. -/
def CLIAnalyticsEventContext.SendEvent (e : CLIAnalyticsEventContext)
    (g : UUIDGen) (hasCtx : Bool) (envOptOut : String) (deps : SendDeps)
    (eventName eventValue : String) : SendOutcome :=
  let tr1 : List Effect :=
    [Effect.sleep 5, Effect.constructClient, Effect.optOutCheck envOptOut]
  if telemetryOptedOut envOptOut then
    { result := (none, none), trace := tr1, gen := g }
  else
    match deps.urlParse analyticsEndpoint with
    | Except.error err => { result := (none, some err), trace := tr1, gen := g }
    | Except.ok urlStr =>
      let p := g.next
      match deps.newRequestErr with
      | some err =>
        { result := (none, some err), trace := tr1, gen := p.2 }
      | none =>
        let req := builtRequest e p.1 urlStr eventName eventValue
          deps.nowUnix hasCtx
        let tr2 := tr1 ++ [Effect.transportCall req]
        match deps.transport req with
        | Except.error err =>
          { result := (none, some err), trace := tr2, gen := p.2 }
        | Except.ok resp =>
          { result := (some resp, none)
            trace := tr2 ++ [Effect.printOut "Sent telemetry event"]
            gen := p.2 }

/-- Whether an effect is a transport request execution. -/
def Effect.isTransportCall : Effect → Bool
  | Effect.transportCall _ => true
  | _ => false

/-- Whether an effect is a print to standard output. -/
def Effect.isPrint : Effect → Bool
  | Effect.printOut _ => true
  | _ => false

/-- How many times a trace invokes the transport's request operation. -/
def transportCallCount (tr : List Effect) : Nat :=
  (tr.filter Effect.isTransportCall).length

/-!
Witness fixtures: a concrete UUID supply (injective, never empty) and
concrete oracle bundles, used to instantiate the hypotheses of the claim
theorems at closed inputs.
-/

/-- A concrete injective UUID supply: `n` maps to `n + 1` copies of `'a'`. -/
def witnessSupply (n : Nat) : String :=
  String.mk (List.replicate (n + 1) 'a')

theorem witnessSupply_injective (n m : Nat)
    (h : witnessSupply n = witnessSupply m) : n = m := by
  have hlen : (witnessSupply n).data.length = (witnessSupply m).data.length := by
    rw [h]
  simpa [witnessSupply] using hlen

theorem witnessSupply_ne_empty (n : Nat) : witnessSupply n ≠ "" := by
  intro h
  have hlen : (witnessSupply n).data.length = ("" : String).data.length := by
    rw [h]
  simp [witnessSupply] at hlen

/-- A concrete generator state for witnesses. -/
def witnessGen : UUIDGen := { supply := witnessSupply, counter := 1 }

/-- A concrete UUID supply in canonical version-4 format, yielding distinct
strings at indices 0 and 1. -/
def witnessUUIDSupply (n : Nat) : String :=
  if n = 0 then "aaaaaaaa-aaaa-4aaa-8aaa-aaaaaaaaaaaa"
  else "bbbbbbbb-bbbb-4bbb-8bbb-bbbbbbbbbbbb"

/-- A concrete context for witnesses, with the invocation identifier set
from the witness supply at index 0 (as `SetInvocationID` would). -/
def witnessCtx : CLIAnalyticsEventContext :=
  { CLIAnalyticsEventContext.zeroValue with InvocationID := witnessSupply 0 }

/-- Concrete oracles for witnesses: the URL round-trips, request building
succeeds, the transport answers 200. -/
def witnessDeps : SendDeps :=
  { urlParse := fun s => Except.ok s
    newRequestErr := none
    transport := fun _ => Except.ok { statusCode := 200 }
    nowUnix := 1700000000 }

/-- Concrete oracles whose transport fails. -/
def witnessDepsNetDown : SendDeps :=
  { urlParse := fun s => Except.ok s
    newRequestErr := none
    transport := fun _ => Except.error { msg := "dial tcp: network down" }
    nowUnix := 1700000000 }

/-- Concrete oracles whose URL parse fails. -/
def witnessDepsBadURL : SendDeps :=
  { urlParse := fun _ => Except.error { msg := "parse: invalid URL" }
    newRequestErr := none
    transport := fun _ => Except.ok { statusCode := 200 }
    nowUnix := 1700000000 }

/-- Concrete oracles whose request construction fails. -/
def witnessDepsReqFail : SendDeps :=
  { urlParse := fun s => Except.ok s
    newRequestErr := some { msg := "net/http: invalid request" }
    transport := fun _ => Except.ok { statusCode := 200 }
    nowUnix := 1700000000 }

/-- Every trace of `SendEvent` starts with the sleep, the client
construction and the opt-out check, in that order. -/
theorem sendEvent_trace_shape (e : CLIAnalyticsEventContext) (g : UUIDGen)
    (hasCtx : Bool) (env : String) (deps : SendDeps)
    (eventName eventValue : String) :
    ∃ rest,
      (e.SendEvent g hasCtx env deps eventName eventValue).trace =
        [Effect.sleep 5, Effect.constructClient, Effect.optOutCheck env] ++
          rest := by
  dsimp only [CLIAnalyticsEventContext.SendEvent]
  split
  · exact ⟨[], rfl⟩
  · split
    · exact ⟨[], rfl⟩
    · split
      · exact ⟨[], rfl⟩
      · split
        · exact ⟨_, rfl⟩
        · exact ⟨_, rfl⟩

/-- C1: with the opt-out environment variable holding a recognized truthy
value, `SendEvent` invokes the transport zero times and returns the no-op
sentinel `(nil, nil)`. -/
theorem sendEvent_optout_noop (e : CLIAnalyticsEventContext) (g : UUIDGen)
    (hasCtx : Bool) (env : String) (deps : SendDeps)
    (eventName eventValue : String)
    (hopt : telemetryOptedOut env = true) :
    (e.SendEvent g hasCtx env deps eventName eventValue).result =
        (none, none) ∧
      transportCallCount
        (e.SendEvent g hasCtx env deps eventName eventValue).trace = 0 := by
  simp [CLIAnalyticsEventContext.SendEvent, hopt, transportCallCount,
    Effect.isTransportCall]

theorem sendEvent_optout_noop_witness :
    telemetryOptedOut "1" = true ∧
      ((witnessCtx.SendEvent witnessGen false "1" witnessDeps "purchase"
            "42").result = (none, none) ∧
        transportCallCount
          (witnessCtx.SendEvent witnessGen false "1" witnessDeps "purchase"
              "42").trace = 0) :=
  ⟨by decide,
    sendEvent_optout_noop witnessCtx witnessGen false "1" witnessDeps
      "purchase" "42" (by decide)⟩

/-- C10: the opt-out check is never performed before the fixed five-second
delay and the client construction: every trace opens with the sleep, then
the client construction, then the opt-out check, and an opted-out call
still incurs those first two steps before returning `(nil, nil)`. -/
theorem sendEvent_delay_before_optout (e : CLIAnalyticsEventContext)
    (g : UUIDGen) (hasCtx : Bool) (env env2 : String) (deps deps2 : SendDeps)
    (eventName eventValue : String)
    (hopt : telemetryOptedOut env = true) :
    (e.SendEvent g hasCtx env deps eventName eventValue).trace =
        [Effect.sleep 5, Effect.constructClient, Effect.optOutCheck env] ∧
      (e.SendEvent g hasCtx env deps eventName eventValue).result =
        (none, none) ∧
      (e.SendEvent g hasCtx env2 deps2 eventName eventValue).trace.take 3 =
        [Effect.sleep 5, Effect.constructClient, Effect.optOutCheck env2] := by
  obtain ⟨rest, hrest⟩ :=
    sendEvent_trace_shape e g hasCtx env2 deps2 eventName eventValue
  refine ⟨?_, ?_, ?_⟩
  · simp [CLIAnalyticsEventContext.SendEvent, hopt]
  · simp [CLIAnalyticsEventContext.SendEvent, hopt]
  · rw [hrest]
    rfl

theorem sendEvent_delay_before_optout_witness :
    telemetryOptedOut "true" = true ∧
      ((witnessCtx.SendEvent witnessGen false "true" witnessDeps "purchase"
            "42").trace =
          [Effect.sleep 5, Effect.constructClient,
            Effect.optOutCheck "true"] ∧
        (witnessCtx.SendEvent witnessGen false "true" witnessDeps "purchase"
            "42").result = (none, none) ∧
        (witnessCtx.SendEvent witnessGen false "" witnessDeps "purchase"
            "42").trace.take 3 =
          [Effect.sleep 5, Effect.constructClient, Effect.optOutCheck ""]) :=
  ⟨by decide,
    sendEvent_delay_before_optout witnessCtx witnessGen false "true" ""
      witnessDeps witnessDeps "purchase" "42" (by decide)⟩

/-- No call to `SendEvent` invokes the transport more than once, whatever
the oracles answer. -/
theorem sendEvent_transport_le_one (e : CLIAnalyticsEventContext)
    (g : UUIDGen) (hasCtx : Bool) (env : String) (deps : SendDeps)
    (eventName eventValue : String) :
    transportCallCount
      (e.SendEvent g hasCtx env deps eventName eventValue).trace ≤ 1 := by
  dsimp only [CLIAnalyticsEventContext.SendEvent]
  split
  · simp [transportCallCount, Effect.isTransportCall]
  · split
    · simp [transportCallCount, Effect.isTransportCall]
    · split
      · simp [transportCallCount, Effect.isTransportCall]
      · split
        · simp [transportCallCount, Effect.isTransportCall]
        · simp [transportCallCount, Effect.isTransportCall]

/-- C2: on a non-opted-out call, each of the three failure kinds — URL
parse failure, request-construction failure, transport failure — comes back
to the caller as `(nil, err)` with the encountered error; success returns
the raw response with nil error; and the transport is never invoked more
than once (no retry). The function is total, so no failure escalates. -/
theorem sendEvent_failure_propagation (e : CLIAnalyticsEventContext)
    (g : UUIDGen) (hasCtx : Bool) (env : String) (deps : SendDeps)
    (eventName eventValue : String)
    (hopt : telemetryOptedOut env = false) :
    (∀ err, deps.urlParse analyticsEndpoint = Except.error err →
        (e.SendEvent g hasCtx env deps eventName eventValue).result =
          (none, some err)) ∧
      (∀ urlStr err, deps.urlParse analyticsEndpoint = Except.ok urlStr →
        deps.newRequestErr = some err →
        (e.SendEvent g hasCtx env deps eventName eventValue).result =
          (none, some err)) ∧
      (∀ urlStr err, deps.urlParse analyticsEndpoint = Except.ok urlStr →
        deps.newRequestErr = none →
        deps.transport
            (builtRequest e (g.supply g.counter) urlStr eventName eventValue
              deps.nowUnix hasCtx) = Except.error err →
        (e.SendEvent g hasCtx env deps eventName eventValue).result =
          (none, some err)) ∧
      (∀ urlStr resp, deps.urlParse analyticsEndpoint = Except.ok urlStr →
        deps.newRequestErr = none →
        deps.transport
            (builtRequest e (g.supply g.counter) urlStr eventName eventValue
              deps.nowUnix hasCtx) = Except.ok resp →
        (e.SendEvent g hasCtx env deps eventName eventValue).result =
          (some resp, none)) ∧
      transportCallCount
        (e.SendEvent g hasCtx env deps eventName eventValue).trace ≤ 1 := by
  refine ⟨?_, ?_, ?_, ?_,
    sendEvent_transport_le_one e g hasCtx env deps eventName eventValue⟩
  · intro err herr
    simp [CLIAnalyticsEventContext.SendEvent, hopt, herr]
  · intro urlStr err hurl hreq
    simp [CLIAnalyticsEventContext.SendEvent, hopt, hurl, hreq, UUIDGen.next]
  · intro urlStr err hurl hreq htr
    simp [CLIAnalyticsEventContext.SendEvent, hopt, hurl, hreq, htr,
      UUIDGen.next]
  · intro urlStr resp hurl hreq htr
    simp [CLIAnalyticsEventContext.SendEvent, hopt, hurl, hreq, htr,
      UUIDGen.next]

theorem sendEvent_failure_propagation_witness :
    telemetryOptedOut "" = false ∧
      ((witnessCtx.SendEvent witnessGen false "" witnessDepsNetDown
            "purchase" "42").result =
          (none, some { msg := "dial tcp: network down" }) ∧
        (witnessCtx.SendEvent witnessGen false "" witnessDeps "purchase"
            "42").result = (some { statusCode := 200 }, none)) := by
  have h := sendEvent_failure_propagation witnessCtx witnessGen false ""
    witnessDepsNetDown "purchase" "42" (by decide)
  have h2 := sendEvent_failure_propagation witnessCtx witnessGen false ""
    witnessDeps "purchase" "42" (by decide)
  refine ⟨by decide, ?_, ?_⟩
  · exact h.2.2.1 analyticsEndpoint { msg := "dial tcp: network down" } rfl
      rfl rfl
  · exact h2.2.2.2.1 analyticsEndpoint { statusCode := 200 } rfl rfl rfl

/-- C4: on a non-opted-out call where the URL parses (round-tripping to the
fixed endpoint) and request construction succeeds, the transport is invoked
exactly once — whatever it answers — and the one request executed is the
POST to the fixed analytics endpoint with the `origin` and `Content-Type`
headers and the encoded form as body. -/
theorem sendEvent_post_once (e : CLIAnalyticsEventContext) (g : UUIDGen)
    (hasCtx : Bool) (env : String) (deps : SendDeps)
    (eventName eventValue : String)
    (hopt : telemetryOptedOut env = false)
    (hurl : deps.urlParse analyticsEndpoint = Except.ok analyticsEndpoint)
    (hreq : deps.newRequestErr = none) :
    transportCallCount
        (e.SendEvent g hasCtx env deps eventName eventValue).trace = 1 ∧
      ∀ req, Effect.transportCall req ∈
          (e.SendEvent g hasCtx env deps eventName eventValue).trace →
        req.method = "POST" ∧
        req.url = analyticsEndpoint ∧
        req.headers = [("origin", "stripe-cli"),
          ("Content-Type", "application/x-www-form-urlencoded")] ∧
        req.body = telemetryFormData e (g.supply g.counter) eventName
          eventValue deps.nowUnix := by
  cases htr : deps.transport (builtRequest e (g.supply g.counter)
      analyticsEndpoint eventName eventValue deps.nowUnix hasCtx) with
  | error err =>
    constructor
    · simp [CLIAnalyticsEventContext.SendEvent, hopt, hurl, hreq,
        UUIDGen.next, htr, transportCallCount, Effect.isTransportCall]
    · intro req hm
      simp [CLIAnalyticsEventContext.SendEvent, hopt, hurl, hreq,
        UUIDGen.next, htr] at hm
      subst hm
      exact ⟨rfl, rfl, rfl, rfl⟩
  | ok resp =>
    constructor
    · simp [CLIAnalyticsEventContext.SendEvent, hopt, hurl, hreq,
        UUIDGen.next, htr, transportCallCount, Effect.isTransportCall]
    · intro req hm
      simp [CLIAnalyticsEventContext.SendEvent, hopt, hurl, hreq,
        UUIDGen.next, htr] at hm
      subst hm
      exact ⟨rfl, rfl, rfl, rfl⟩

theorem sendEvent_post_once_witness :
    telemetryOptedOut "0" = false ∧
      witnessDeps.urlParse analyticsEndpoint = Except.ok analyticsEndpoint ∧
      witnessDeps.newRequestErr = none ∧
      (transportCallCount
          (witnessCtx.SendEvent witnessGen false "0" witnessDeps "purchase"
              "42").trace = 1 ∧
        ∀ req, Effect.transportCall req ∈
            (witnessCtx.SendEvent witnessGen false "0" witnessDeps "purchase"
                "42").trace →
          req.method = "POST" ∧
          req.url = analyticsEndpoint ∧
          req.headers = [("origin", "stripe-cli"),
            ("Content-Type", "application/x-www-form-urlencoded")] ∧
          req.body = telemetryFormData witnessCtx (witnessGen.supply
            witnessGen.counter) "purchase" "42" witnessDeps.nowUnix) :=
  ⟨by decide, rfl, rfl,
    sendEvent_post_once witnessCtx witnessGen false "0" witnessDeps
      "purchase" "42" (by decide) rfl rfl⟩

/-- C3: on a non-opted-out call reaching the transport, the form body
carries every context field under its declared query key, plus
`client_id=stripe-cli`, a freshly drawn non-empty `event_id` distinct from
the invocation identifier, the event name and value, and `created` set to
the Unix-seconds clock reading; the generator counter moves past the drawn
`event_id`. The freshness hypotheses state that the UUID supply never
repeats, never yields the empty string, and previously produced the stored
`InvocationID`. -/
theorem sendEvent_form_body_complete (e : CLIAnalyticsEventContext)
    (g : UUIDGen) (hasCtx : Bool) (env : String) (deps : SendDeps)
    (eventName eventValue : String) (k : Nat)
    (hopt : telemetryOptedOut env = false)
    (hurl : deps.urlParse analyticsEndpoint = Except.ok analyticsEndpoint)
    (hreq : deps.newRequestErr = none)
    (hinj : ∀ n m, g.supply n = g.supply m → n = m)
    (hne : ∀ n, g.supply n ≠ "")
    (hinv : e.InvocationID = g.supply k) (hk : k < g.counter) :
    (e.SendEvent g hasCtx env deps eventName eventValue).gen.counter =
        g.counter + 1 ∧
      ∀ req, Effect.transportCall req ∈
          (e.SendEvent g hasCtx env deps eventName eventValue).trace →
        formGet req.body "user_agent" = some e.UserAgent ∧
        formGet req.body "invocation_id" = some e.InvocationID ∧
        formGet req.body "command_path" = some e.CommandPath ∧
        formGet req.body "merchant" = some e.Merchant ∧
        formGet req.body "cli_version" = some e.CLIVersion ∧
        formGet req.body "os" = some e.OS ∧
        formGet req.body "generated_resource" =
          some (boolString e.GeneratedResource) ∧
        formGet req.body "request_id" = some e.RequestID ∧
        formGet req.body "livemode" = some (boolString e.LiveMode) ∧
        formGet req.body "client_id" = some "stripe-cli" ∧
        formGet req.body "event_id" = some (g.supply g.counter) ∧
        g.supply g.counter ≠ "" ∧
        g.supply g.counter ≠ e.InvocationID ∧
        formGet req.body "event_name" = some eventName ∧
        formGet req.body "event_value" = some eventValue ∧
        formGet req.body "created" = some (toString deps.nowUnix) := by
  have hfresh : g.supply g.counter ≠ e.InvocationID := by
    rw [hinv]
    intro hcontra
    exact absurd (hinj g.counter k hcontra) (Nat.ne_of_gt hk)
  have hbody : ∀ req, Effect.transportCall req ∈
      (e.SendEvent g hasCtx env deps eventName eventValue).trace →
      req = builtRequest e (g.supply g.counter) analyticsEndpoint eventName
        eventValue deps.nowUnix hasCtx := by
    intro req hm
    cases htr : deps.transport (builtRequest e (g.supply g.counter)
        analyticsEndpoint eventName eventValue deps.nowUnix hasCtx) with
    | error err =>
      simp [CLIAnalyticsEventContext.SendEvent, hopt, hurl, hreq,
        UUIDGen.next, htr] at hm
      exact hm
    | ok resp =>
      simp [CLIAnalyticsEventContext.SendEvent, hopt, hurl, hreq,
        UUIDGen.next, htr] at hm
      exact hm
  constructor
  · cases htr : deps.transport (builtRequest e (g.supply g.counter)
        analyticsEndpoint eventName eventValue deps.nowUnix hasCtx) with
    | error err =>
      simp [CLIAnalyticsEventContext.SendEvent, hopt, hurl, hreq,
        UUIDGen.next, htr]
    | ok resp =>
      simp [CLIAnalyticsEventContext.SendEvent, hopt, hurl, hreq,
        UUIDGen.next, htr]
  · intro req hm
    rw [hbody req hm]
    refine ⟨?_, ?_, ?_, ?_, ?_, ?_, ?_, ?_, ?_, ?_, ?_,
      hne g.counter, hfresh, ?_, ?_, ?_⟩ <;>
      simp [builtRequest, telemetryFormData, valuesSet, queryValues, formGet]

theorem sendEvent_form_body_complete_witness :
    telemetryOptedOut "" = false ∧
      witnessCtx.InvocationID = witnessGen.supply 0 ∧
      0 < witnessGen.counter ∧
      ((witnessCtx.SendEvent witnessGen false "" witnessDeps "purchase"
            "42").gen.counter = witnessGen.counter + 1 ∧
        ∀ req, Effect.transportCall req ∈
            (witnessCtx.SendEvent witnessGen false "" witnessDeps "purchase"
                "42").trace →
          formGet req.body "user_agent" = some witnessCtx.UserAgent ∧
          formGet req.body "invocation_id" = some witnessCtx.InvocationID ∧
          formGet req.body "command_path" = some witnessCtx.CommandPath ∧
          formGet req.body "merchant" = some witnessCtx.Merchant ∧
          formGet req.body "cli_version" = some witnessCtx.CLIVersion ∧
          formGet req.body "os" = some witnessCtx.OS ∧
          formGet req.body "generated_resource" =
            some (boolString witnessCtx.GeneratedResource) ∧
          formGet req.body "request_id" = some witnessCtx.RequestID ∧
          formGet req.body "livemode" = some (boolString witnessCtx.LiveMode) ∧
          formGet req.body "client_id" = some "stripe-cli" ∧
          formGet req.body "event_id" =
            some (witnessGen.supply witnessGen.counter) ∧
          witnessGen.supply witnessGen.counter ≠ "" ∧
          witnessGen.supply witnessGen.counter ≠ witnessCtx.InvocationID ∧
          formGet req.body "event_name" = some "purchase" ∧
          formGet req.body "event_value" = some "42" ∧
          formGet req.body "created" = some (toString witnessDeps.nowUnix)) :=
  ⟨by decide, rfl, by decide,
    sendEvent_form_body_complete witnessCtx witnessGen false "" witnessDeps
      "purchase" "42" 0 (by decide) rfl rfl
      (fun n m h => witnessSupply_injective n m h)
      (fun n => witnessSupply_ne_empty n) rfl (by decide)⟩

/-- C5 counterexample: a call that passes the opt-out gate (the variable is
unset) and reaches the transport, whose transport call fails, produces no
output at all — refuting that every non-opted-out call prints the
confirmation whatever the outcome of the network call. In the source the
`fmt.Printf` sits after the `client.Do` error return. -/
theorem sendEvent_print_counterexample :
    telemetryOptedOut "" = false ∧
      transportCallCount
        (witnessCtx.SendEvent witnessGen false "" witnessDepsNetDown
            "purchase" "42").trace = 1 ∧
      ((witnessCtx.SendEvent witnessGen false "" witnessDepsNetDown
            "purchase" "42").trace.all fun ef => !ef.isPrint) = true := by
  refine ⟨by decide, ?_, ?_⟩ <;>
    simp [CLIAnalyticsEventContext.SendEvent, witnessDepsNetDown,
      UUIDGen.next, transportCallCount, Effect.isTransportCall,
      Effect.isPrint, telemetryOptedOut]

/-- C5 amended: a non-opted-out call prints the fixed confirmation exactly
when its transport call returns a response — whatever that response's
status — and prints nothing when the URL parse, the request construction,
or the transport fails. -/
theorem sendEvent_print_on_response (e : CLIAnalyticsEventContext)
    (g : UUIDGen) (hasCtx : Bool) (env : String) (deps : SendDeps)
    (eventName eventValue : String)
    (hopt : telemetryOptedOut env = false) :
    (∀ urlStr resp, deps.urlParse analyticsEndpoint = Except.ok urlStr →
        deps.newRequestErr = none →
        deps.transport
            (builtRequest e (g.supply g.counter) urlStr eventName eventValue
              deps.nowUnix hasCtx) = Except.ok resp →
        Effect.printOut "Sent telemetry event" ∈
          (e.SendEvent g hasCtx env deps eventName eventValue).trace) ∧
      (∀ err, deps.urlParse analyticsEndpoint = Except.error err →
        ∀ msg, Effect.printOut msg ∉
          (e.SendEvent g hasCtx env deps eventName eventValue).trace) ∧
      (∀ urlStr err, deps.urlParse analyticsEndpoint = Except.ok urlStr →
        deps.newRequestErr = some err →
        ∀ msg, Effect.printOut msg ∉
          (e.SendEvent g hasCtx env deps eventName eventValue).trace) ∧
      (∀ urlStr err, deps.urlParse analyticsEndpoint = Except.ok urlStr →
        deps.newRequestErr = none →
        deps.transport
            (builtRequest e (g.supply g.counter) urlStr eventName eventValue
              deps.nowUnix hasCtx) = Except.error err →
        ∀ msg, Effect.printOut msg ∉
          (e.SendEvent g hasCtx env deps eventName eventValue).trace) := by
  refine ⟨?_, ?_, ?_, ?_⟩
  · intro urlStr resp hurl hreq htr
    simp [CLIAnalyticsEventContext.SendEvent, hopt, hurl, hreq,
      UUIDGen.next, htr]
  · intro err hurl msg
    simp [CLIAnalyticsEventContext.SendEvent, hopt, hurl]
  · intro urlStr err hurl hreq msg
    simp [CLIAnalyticsEventContext.SendEvent, hopt, hurl, hreq,
      UUIDGen.next]
  · intro urlStr err hurl hreq htr msg
    simp [CLIAnalyticsEventContext.SendEvent, hopt, hurl, hreq,
      UUIDGen.next, htr]

theorem sendEvent_print_on_response_witness :
    Effect.printOut "Sent telemetry event" ∈
        (witnessCtx.SendEvent witnessGen false "" witnessDeps "purchase"
            "42").trace ∧
      (∀ msg, Effect.printOut msg ∉
        (witnessCtx.SendEvent witnessGen false "" witnessDepsBadURL
            "purchase" "42").trace) ∧
      (∀ msg, Effect.printOut msg ∉
        (witnessCtx.SendEvent witnessGen false "" witnessDepsReqFail
            "purchase" "42").trace) ∧
      ∀ msg, Effect.printOut msg ∉
        (witnessCtx.SendEvent witnessGen false "" witnessDepsNetDown
            "purchase" "42").trace := by
  refine ⟨?_, ?_, ?_, ?_⟩
  · exact (sendEvent_print_on_response witnessCtx witnessGen false ""
      witnessDeps "purchase" "42" (by decide)).1 analyticsEndpoint
      { statusCode := 200 } rfl rfl rfl
  · intro msg
    exact (sendEvent_print_on_response witnessCtx witnessGen false ""
      witnessDepsBadURL "purchase" "42" (by decide)).2.1
      { msg := "parse: invalid URL" } rfl msg
  · intro msg
    exact (sendEvent_print_on_response witnessCtx witnessGen false ""
      witnessDepsReqFail "purchase" "42" (by decide)).2.2.1 analyticsEndpoint
      { msg := "net/http: invalid request" } rfl rfl msg
  · intro msg
    exact (sendEvent_print_on_response witnessCtx witnessGen false ""
      witnessDepsNetDown "purchase" "42" (by decide)).2.2.2 analyticsEndpoint
      { msg := "dial tcp: network down" } rfl rfl rfl msg

/-- C6 counterexample: the pre-send delay is not overridable — at two
maximally different concrete configurations (different context, generator,
environment value, oracles, event) the call performs the identical
five-second sleep as its first step; `SendEvent` takes no delay parameter
at all, the sleep being the hard-coded `time.Sleep(5 * time.Second)` of the
source. -/
theorem sendEvent_delay_counterexample :
    (witnessCtx.SendEvent witnessGen false "" witnessDeps "purchase"
          "42").trace.head? = some (Effect.sleep 5) ∧
      (CLIAnalyticsEventContext.zeroValue.SendEvent
          { supply := witnessUUIDSupply, counter := 0 } true "1"
          witnessDepsNetDown "config" "delay=0").trace.head? =
        some (Effect.sleep 5) := by
  constructor <;>
    simp [CLIAnalyticsEventContext.SendEvent, witnessDeps,
      witnessDepsNetDown, UUIDGen.next, telemetryOptedOut]

/-- C6 amended: the pre-send delay performed before the opt-out check is a
fixed, hard-coded five-second sleep: it is the first step of every call to
`SendEvent`, and every sleep occurring in any call's trace lasts exactly
five seconds, whatever the inputs. -/
theorem sendEvent_delay_fixed (e : CLIAnalyticsEventContext) (g : UUIDGen)
    (hasCtx : Bool) (env : String) (deps : SendDeps)
    (eventName eventValue : String) :
    (e.SendEvent g hasCtx env deps eventName eventValue).trace.head? =
        some (Effect.sleep 5) ∧
      ∀ s, Effect.sleep s ∈
          (e.SendEvent g hasCtx env deps eventName eventValue).trace →
        s = 5 := by
  dsimp only [CLIAnalyticsEventContext.SendEvent]
  split
  · constructor
    · rfl
    · intro s hs
      simp at hs
      exact hs
  · split
    · constructor
      · rfl
      · intro s hs
        simp at hs
        exact hs
    · split
      · constructor
        · rfl
        · intro s hs
          simp at hs
          exact hs
      · split
        · constructor
          · rfl
          · intro s hs
            simp at hs
            exact hs
        · constructor
          · rfl
          · intro s hs
            simp at hs
            exact hs

/-- The annotation scan of `SetCommandContext`: folding the flag update
over the list computes whether any annotation value is `"operation"`. -/
theorem setCommandContext_foldl (l : List (String × String))
    (acc : CLIAnalyticsEventContext) :
    l.foldl
        (fun acc kv =>
          if kv.2 = "operation" then { acc with GeneratedResource := true }
          else acc) acc =
      { acc with GeneratedResource :=
          acc.GeneratedResource || l.any fun kv => kv.2 = "operation" } := by
  induction l generalizing acc with
  | nil => simp
  | cons hd tl ih =>
    by_cases h : hd.2 = "operation"
    · simp [h, ih, Bool.or_assoc]
    · simp [h, ih]

/-- C7: `SetCommandContext` sets `CommandPath` to the descriptor's path,
sets `GeneratedResource` exactly when some annotation value is the literal
`"operation"`, leaves every other field unchanged, and a second bind with
another descriptor overwrites both values, the result depending only on the
last descriptor. -/
theorem setCommandContext_spec (e : CLIAnalyticsEventContext)
    (cmd cmd2 : CobraCommand) :
    (e.SetCommandContext cmd).CommandPath = cmd.commandPath ∧
      ((e.SetCommandContext cmd).GeneratedResource = true ↔
        ∃ p ∈ cmd.annotations, p.2 = "operation") ∧
      (e.SetCommandContext cmd).UserAgent = e.UserAgent ∧
      (e.SetCommandContext cmd).InvocationID = e.InvocationID ∧
      (e.SetCommandContext cmd).Merchant = e.Merchant ∧
      (e.SetCommandContext cmd).CLIVersion = e.CLIVersion ∧
      (e.SetCommandContext cmd).OS = e.OS ∧
      (e.SetCommandContext cmd).RequestID = e.RequestID ∧
      (e.SetCommandContext cmd).LiveMode = e.LiveMode ∧
      (e.SetCommandContext cmd).SetCommandContext cmd2 =
        e.SetCommandContext cmd2 := by
  obtain ⟨ua, iid, cp, mc, cv, osf, gr, rid, lm⟩ := e
  simp [CLIAnalyticsEventContext.SetCommandContext, setCommandContext_foldl,
    List.any_eq_true]

/-- `isUUIDv4Format` forces a 36-character string, hence a non-empty one. -/
theorem isUUIDv4Format_ne_empty (s : String)
    (h : isUUIDv4Format s = true) : s ≠ "" := by
  intro he
  rw [he] at h
  exact absurd h (by decide)

/-- C8: `SetInvocationID` stores exactly the next value the UUID generator
yields — it is not memoized, so the second of two successive calls stores
the next value again; under the generator's contract (each yield is in
canonical version-4 format, and the two successive yields differ) the
stored identifier is non-empty, version-4 formatted, and the two calls
store different values. -/
theorem setInvocationID_spec (e : CLIAnalyticsEventContext) (g : UUIDGen)
    (hfmt : ∀ n, isUUIDv4Format (g.supply n) = true)
    (hneq : g.supply g.counter ≠ g.supply (g.counter + 1)) :
    (e.SetInvocationID g).1.InvocationID = g.supply g.counter ∧
      ((e.SetInvocationID g).1.SetInvocationID
          (e.SetInvocationID g).2).1.InvocationID =
        g.supply (g.counter + 1) ∧
      (e.SetInvocationID g).1.InvocationID ≠ "" ∧
      isUUIDv4Format (e.SetInvocationID g).1.InvocationID = true ∧
      ((e.SetInvocationID g).1.SetInvocationID
          (e.SetInvocationID g).2).1.InvocationID ≠
        (e.SetInvocationID g).1.InvocationID := by
  refine ⟨rfl, rfl, ?_, hfmt g.counter, ?_⟩
  · exact isUUIDv4Format_ne_empty (g.supply g.counter) (hfmt g.counter)
  · exact fun hcontra => hneq hcontra.symm

theorem setInvocationID_spec_witness :
    (∀ n, isUUIDv4Format (witnessUUIDSupply n) = true) ∧
      witnessUUIDSupply 0 ≠ witnessUUIDSupply 1 ∧
      ((CLIAnalyticsEventContext.zeroValue.SetInvocationID
            { supply := witnessUUIDSupply,
              counter := 0 }).1.InvocationID = witnessUUIDSupply 0 ∧
        ((CLIAnalyticsEventContext.zeroValue.SetInvocationID
              { supply := witnessUUIDSupply, counter := 0 }).1.SetInvocationID
            (CLIAnalyticsEventContext.zeroValue.SetInvocationID
              { supply := witnessUUIDSupply,
                counter := 0 }).2).1.InvocationID = witnessUUIDSupply 1 ∧
        (CLIAnalyticsEventContext.zeroValue.SetInvocationID
            { supply := witnessUUIDSupply, counter := 0 }).1.InvocationID ≠
          "" ∧
        isUUIDv4Format
            (CLIAnalyticsEventContext.zeroValue.SetInvocationID
              { supply := witnessUUIDSupply,
                counter := 0 }).1.InvocationID = true ∧
        ((CLIAnalyticsEventContext.zeroValue.SetInvocationID
              { supply := witnessUUIDSupply, counter := 0 }).1.SetInvocationID
            (CLIAnalyticsEventContext.zeroValue.SetInvocationID
              { supply := witnessUUIDSupply,
                counter := 0 }).2).1.InvocationID ≠
          (CLIAnalyticsEventContext.zeroValue.SetInvocationID
              { supply := witnessUUIDSupply,
                counter := 0 }).1.InvocationID) := by
  have hfmt : ∀ n, isUUIDv4Format (witnessUUIDSupply n) = true := by
    intro n
    dsimp [witnessUUIDSupply]
    split
    · decide
    · decide
  refine ⟨hfmt, by decide, ?_⟩
  exact setInvocationID_spec CLIAnalyticsEventContext.zeroValue
    { supply := witnessUUIDSupply, counter := 0 } hfmt (by decide)

/-- The package state is the same after every positive number of calls to
`GetAnalyticsEventContext`: one allocated zero-valued record at location 0,
pointed to by `telemetryInstance`, with the once-guard fired. -/
theorem telemetryAfterCalls_succ (n : Nat) :
    telemetryAfterCalls (n + 1) =
      { heap := [CLIAnalyticsEventContext.zeroValue]
        telemetryInstance := some 0
        onceDone := true } := by
  induction n with
  | zero => rfl
  | succ k ih =>
    show (GetAnalyticsEventContext (telemetryAfterCalls (k + 1))).2 = _
    rw [ih]
    rfl

/-- C9: starting from program start, every call to
`GetAnalyticsEventContext` returns the same non-nil reference (location 0);
the first call allocates the zero-valued record and the once-guard keeps
the heap at that single allocation forever after (initialization happens at
most once); and a record written through the reference returned by the
`n+1`-st call is read back through the reference returned by the `m+1`-st
call. The accessor is total — it has no error path. -/
theorem getAnalyticsEventContext_singleton (n m : Nat)
    (e' : CLIAnalyticsEventContext) :
    (GetAnalyticsEventContext TelemetryGlobals.start).1 = some 0 ∧
      (GetAnalyticsEventContext TelemetryGlobals.start).2.heap =
        [CLIAnalyticsEventContext.zeroValue] ∧
      (GetAnalyticsEventContext (telemetryAfterCalls (n + 1))).1 = some 0 ∧
      (GetAnalyticsEventContext (telemetryAfterCalls (n + 1))).1 =
        (GetAnalyticsEventContext (telemetryAfterCalls (m + 1))).1 ∧
      (telemetryAfterCalls (n + 1)).heap.length = 1 ∧
      heapRead (heapWrite (telemetryAfterCalls (n + 1)) 0 e') 0 =
        some e' := by
  rw [telemetryAfterCalls_succ n, telemetryAfterCalls_succ m]
  refine ⟨rfl, rfl, rfl, rfl, rfl, ?_⟩
  simp [heapRead, heapWrite]
